import Mathlib

/-
Verification development for the Artifactory repository statistics tool
(repo-details-group.py).  The script is a linear pipeline per repository
name: build an AQL query, POST it, flatten the JSON results into a
pandas DataFrame, strip timezones, and write an Excel report.

The shallow embedding below models:
  * configuration merging of command-line flags and environment
    variables (get_configuration),
  * the query builder (generate_aql_query),
  * the query executor (execute_aql_query), with the network outcome
    supplied as an oracle value,
  * row flattening with python dict.get defaults (process_results),
  * pandas to_datetime / tz handling on the created and modified
    columns (remove_timezone),
  * the report computations of write_to_excel (size conversion,
    pd.cut download-range binning, group-by summaries, file naming),
  * the main loop as a trace of events (network call, failure
    diagnostic, spreadsheet written), one event batch per repository.

Timestamp strings are represented by their parse: a raw cell is either
unparsable or an ISO timestamp carrying a wall-clock datetime and an
optional UTC offset.  Python exceptions are modelled with Except.
-/

/-- A wall-clock datetime as used by datetime.now and parsed timestamps.
The strftime format used by the script has minute resolution; the
second field is carried so that distinct instants within one minute
are distinct values of this type. -/
structure PyDateTime where
  year : Nat
  month : Nat
  day : Nat
  hour : Nat
  minute : Nat
  second : Nat
deriving DecidableEq

/-- A raw timestamp string, represented by its parse result: either a
value pandas cannot parse, or an ISO timestamp with wall-clock fields
and an optional timezone offset in minutes. -/
inductive TimeStr
  | unparsable
  | iso (wall : PyDateTime) (tz : Option Int)
deriving DecidableEq

/-- One cell of a datetime64 column: NaT or a naive wall-clock value. -/
inductive TimeCell
  | NaT
  | t (wall : PyDateTime)
deriving DecidableEq

/-- A DataFrame time column: absent (empty frame has no columns), a raw
object column of unparsed values, or a datetime column with the
optional series-level timezone. -/
inductive TCol
  | missing
  | raw (vals : List (Option TimeStr))
  | dt (tz : Option Int) (vals : List TimeCell)
deriving DecidableEq

/-- One entry of the "stats" list of an item, all fields optional as in
the JSON. -/
structure StatEntry where
  downloads : Option Int
  downloaded_by : Option String
  downloaded : Option String
deriving DecidableEq

/-- One item record of the AQL response, fields optional as produced by
dict.get on the JSON object. -/
structure Item where
  repo : Option String
  path : Option String
  name : Option String
  type : Option String
  size : Option Int
  created : Option TimeStr
  created_by : Option String
  modified : Option TimeStr
  modified_by : Option String
  updated : Option String
  stats : Option (List StatEntry)
deriving DecidableEq

/-- A flattened row as built by the comprehension in process_results. -/
structure Row where
  repo : Option String
  path : Option String
  name : Option String
  type : Option String
  size : Option Int
  created : Option TimeStr
  created_by : Option String
  modified : Option TimeStr
  modified_by : Option String
  updated : Option String
  downloads : Int
  downloaded_by : String
  last_downloaded : String
deriving DecidableEq

/-- The decoded JSON body of a successful response: the value of the
"results" key when present, plus the number of other top-level keys
(which Python dict truthiness depends on). -/
structure Response where
  results : Option (List Item)
  otherKeys : Nat
deriving DecidableEq

/-- Python truthiness of the decoded JSON dict: nonempty iff some key
is present. -/
def pyTruthy (r : Response) : Bool :=
  r.results.isSome || r.otherKeys != 0

/-- The DataFrame produced by process_results: the flattened rows plus
the state of the created and modified time columns. -/
structure Frame where
  rows : List Row
  createdCol : TCol
  modifiedCol : TCol
  warned : Bool
deriving DecidableEq

/-- item.get("stats", [default])[0].get(...) flattening of one item:
raises IndexError when "stats" is present but empty, otherwise reads
the first entry with defaults 0 / "N/A" / "N/A". -/
def process_item (item : Item) : Except String Row :=
  match item.stats.getD [⟨none, none, none⟩] with
  | [] => .error "IndexError: list index out of range"
  | st :: _ =>
    .ok { repo := item.repo
          path := item.path
          name := item.name
          type := item.type
          size := item.size
          created := item.created
          created_by := item.created_by
          modified := item.modified
          modified_by := item.modified_by
          updated := item.updated
          downloads := st.downloads.getD 0
          downloaded_by := st.downloaded_by.getD "N/A"
          last_downloaded := st.downloaded.getD "N/A" }

/-- pd.to_datetime with errors=coerce on one raw cell. -/
def parseCell : Option TimeStr → TimeCell
  | none => .NaT
  | some .unparsable => .NaT
  | some (.iso w _) => .t w

/-- The UTC offset of one raw cell, when it parses as timezone-aware. -/
def cellOffset : Option TimeStr → Option Int
  | some (.iso _ (some o)) => some o
  | _ => none

/-- The series-level timezone after pd.to_datetime: present when the
column is nonempty and every cell parses with the same offset. -/
def commonTz : List (Option TimeStr) → Option Int
  | [] => none
  | v :: vs =>
    match cellOffset v with
    | some o => if vs.all (fun c => cellOffset c == some o) then some o else none
    | none => none

/-- pd.to_datetime with errors=coerce on a whole raw column. -/
def parseRawCol (vals : List (Option TimeStr)) : Option Int × List TimeCell :=
  (commonTz vals, vals.map parseCell)

/-- Reading a column as datetime: a missing column raises KeyError (the
empty-frame case); a raw column is parsed; a datetime column is
returned unchanged (pd.to_datetime is the identity on datetime64). -/
def toDatetimeCol : TCol → Except String (Option Int × List TimeCell)
  | .missing => .error "KeyError"
  | .raw vals => .ok (parseRawCol vals)
  | .dt tz vals => .ok (tz, vals)

/-- Left-to-right traversal of the flattening comprehension: the first
raised exception propagates. -/
def mapExcept {α β : Type} (f : α → Except String β) :
    List α → Except String (List β)
  | [] => .ok []
  | a :: as => do
    let b ← f a
    let bs ← mapExcept f as
    .ok (b :: bs)

/-- process_results: flatten every item of result.get("results", []),
build the frame, and convert the created column to datetime when it
exists (it exists iff there is at least one row); otherwise print the
missing-column warning. -/
def process_results (result : Response) : Except String Frame := do
  let rows ← mapExcept process_item (result.results.getD [])
  if rows.isEmpty then
    .ok { rows := rows, createdCol := .missing, modifiedCol := .missing, warned := true }
  else
    let p := parseRawCol (rows.map (fun r => r.created))
    .ok { rows := rows
          createdCol := .dt p.1 p.2
          modifiedCol := .raw (rows.map (fun r => r.modified))
          warned := false }

/-- remove_timezone: re-run pd.to_datetime on both time columns, then
drop the series timezone via tz_localize(None) when one is present. -/
def remove_timezone (f : Frame) : Except String Frame :=
  match toDatetimeCol f.createdCol, toDatetimeCol f.modifiedCol with
  | .error e, _ => .error e
  | .ok _, .error e => .error e
  | .ok (ctz, cvals), .ok (mtz, mvals) =>
    .ok { f with
          createdCol := if ctz.isSome then TCol.dt none cvals else TCol.dt ctz cvals
          modifiedCol := if mtz.isSome then TCol.dt none mvals else TCol.dt mtz mvals }

/-- round(x, 2) of Python on the quotient, modelled with exact rational
arithmetic: round half to even on the hundredths. -/
def roundHalfEven (q : ℚ) : ℤ :=
  if q - ⌊q⌋ < 1/2 then ⌊q⌋
  else if 1/2 < q - ⌊q⌋ then ⌊q⌋ + 1
  else if ⌊q⌋ % 2 = 0 then ⌊q⌋ else ⌊q⌋ + 1

/-- bytes_to_gb: round(bytes_size / (1024 ** 3), 2). -/
def bytes_to_gb (bytes_size : ℚ) : ℚ :=
  (roundHalfEven (bytes_size / (1024 ^ 3) * 100) : ℚ) / 100

/-- The bucket labels passed to pd.cut. -/
def rangeLabels : List String :=
  ["1-10", "11-20", "21-30", "31-40", "41-50", "50+"]

/-- pd.cut(downloads, bins=[0, 10, 20, 30, 40, 50, inf], labels=...)
with the default right-closed intervals: the label of one downloads
value, none when the value falls outside every bin. -/
def downloadRange (d : Int) : Option String :=
  if 0 < d ∧ d ≤ 10 then some "1-10"
  else if 10 < d ∧ d ≤ 20 then some "11-20"
  else if 20 < d ∧ d ≤ 30 then some "21-30"
  else if 30 < d ∧ d ≤ 40 then some "31-40"
  else if 40 < d ∧ d ≤ 50 then some "41-50"
  else if 50 < d then some "50+"
  else none

/-- The decimal digit character of d mod 10, as rendered by strftime
and str. -/
def digitChar (d : Nat) : Char :=
  Char.ofNat (48 + d % 10)

/-- Two-digit zero-padded rendering used by strftime for day, hour and
minute fields. -/
def pad2Chars (n : Nat) : List Char :=
  [digitChar (n / 10), digitChar n]

/-- Four-digit rendering of the year as produced by strftime %Y for the
years 1000 to 9999. -/
def year4Chars (y : Nat) : List Char :=
  [digitChar (y / 1000), digitChar (y / 100), digitChar (y / 10), digitChar y]

/-- The English month abbreviation of strftime %b, for months 1..12. -/
def monthAbbrev : Nat → List Char
  | 1 => ['J', 'a', 'n']
  | 2 => ['F', 'e', 'b']
  | 3 => ['M', 'a', 'r']
  | 4 => ['A', 'p', 'r']
  | 5 => ['M', 'a', 'y']
  | 6 => ['J', 'u', 'n']
  | 7 => ['J', 'u', 'l']
  | 8 => ['A', 'u', 'g']
  | 9 => ['S', 'e', 'p']
  | 10 => ['O', 'c', 't']
  | 11 => ['N', 'o', 'v']
  | 12 => ['D', 'e', 'c']
  | _ => []

/-- datetime.now().strftime of the format %Y%b%dT%H%MHZ used for the
file name, as a character list. -/
def fmtChars (t : PyDateTime) : List Char :=
  year4Chars t.year ++ monthAbbrev t.month ++ pad2Chars t.day ++ ['T']
    ++ pad2Chars t.hour ++ pad2Chars t.minute ++ ['H', 'Z']

/-- The timestamp string of the generated file name. -/
def strftimeHZ (t : PyDateTime) : String :=
  String.mk (fmtChars t)

/-- The generated spreadsheet file name,
f-string repository_name-timestamp-stats.xlsx with the timestamp taken
from the given wall-clock time. -/
def statsFilename (repository_name : String) (now : PyDateTime) : String :=
  repository_name ++ "-" ++ strftimeHZ now ++ "-stats.xlsx"

/-- The field ranges a wall-clock time of datetime.now satisfies (the
year bound restricts to four-digit years, where %Y is four
characters). -/
def validDT (t : PyDateTime) : Prop :=
  1000 ≤ t.year ∧ t.year < 10000 ∧ 1 ≤ t.month ∧ t.month < 13 ∧
    t.day < 100 ∧ t.hour < 100 ∧ t.minute < 100

/-- The keys of a list in order of first occurrence, as the group-by
keys of the summaries. -/
def distinctKeys {α : Type} [DecidableEq α] (l : List α) : List α :=
  l.foldl (fun acc a => if a ∈ acc then acc else acc ++ [a]) []

/-- value_counts / groupby-count: each distinct key with its number of
occurrences. -/
def groupCounts {α : Type} [DecidableEq α] (l : List α) : List (α × Nat) :=
  (distinctKeys l).map (fun a => (a, l.count a))

/-- dt.year of one cell; NaT gives a missing value that group-by
operations drop. -/
def yearOfCell : TimeCell → Option Nat
  | .NaT => none
  | .t w => some w.year

/-- dt.month of one cell. -/
def monthOfCell : TimeCell → Option Nat
  | .NaT => none
  | .t w => some w.month

/-- dt.strftime("%b %Y") of one cell, the month_year group label. -/
def monthYearLabel : TimeCell → Option String
  | .NaT => none
  | .t w => some (String.mk (monthAbbrev w.month) ++ " " ++ toString w.year)

/-- Reading the cells of a time column for the .dt accessor: missing
column raises KeyError, non-datetime column raises AttributeError. -/
def colCells : TCol → Except String (List TimeCell)
  | .missing => .error "KeyError"
  | .raw _ => .error "AttributeError"
  | .dt _ vals => .ok vals

/-- The summary content computed by write_to_excel. -/
structure ExcelOut where
  zeroDownloads : Nat
  downloadSummary : List (String × Nat)
  yearlySummary : List (Nat × Nat × ℚ)
  monthlyUploads : List (String × Nat)
  uploadsByUser : List (String × Nat)
  yearlyUploadCounts : List (Nat × Nat)
deriving DecidableEq

/-- write_to_excel without the rendering side effects: derives year,
month, size_in_gb and month_year, computes the download-range
histogram, the yearly, monthly and per-user summaries and the
zero-download count.  A missing size raises TypeError inside
df.apply(bytes_to_gb). -/
def write_to_excel (f : Frame) : Except String ExcelOut := do
  let cells ← colCells f.createdCol
  let years := cells.map yearOfCell
  let _months := cells.map monthOfCell
  let sizes ← f.rows.mapM (fun r =>
    match r.size with
    | some s => Except.ok (bytes_to_gb (s : ℚ))
    | none => Except.error "TypeError: unsupported operand type")
  let downloadsCol := f.rows.map (fun r => r.downloads)
  let downloadSummary := rangeLabels.map (fun l =>
    (l, (downloadsCol.filter (fun d => downloadRange d == some l)).length))
  let yearPairs := (years.zip sizes).filterMap
    (fun p => p.1.map (fun y => (y, p.2)))
  let yearlySummary := (distinctKeys (yearPairs.map (fun p => p.1))).map
    (fun y =>
      (y, (yearPairs.filter (fun p => p.1 == y)).length,
        ((yearPairs.filter (fun p => p.1 == y)).map (fun p => p.2)).sum))
  let monthlyUploads := groupCounts (cells.filterMap monthYearLabel)
  let uploadsByUser := groupCounts (f.rows.filterMap (fun r => r.created_by))
  .ok { zeroDownloads := (downloadsCol.filter (fun d => d == 0)).length
        downloadSummary := downloadSummary
        yearlySummary := yearlySummary
        monthlyUploads := monthlyUploads
        uploadsByUser := uploadsByUser
        yearlyUploadCounts := groupCounts (years.filterMap id) }

/-- The command-line flags, each absent when not given on the command
line (argparse then falls back to the environment default). -/
structure Flags where
  artifactory_url : Option String
  username : Option String
  password : Option String
  repository_names : Option (List String)
deriving DecidableEq

/-- The environment variables read through os.getenv. -/
structure EnvVars where
  artifactory_url : Option String
  username : Option String
  password : Option String
  repository_names : Option String
deriving DecidableEq

/-- Merged Artifactory URL: the flag value, else the environment. -/
def mergedUrl (fl : Flags) (env : EnvVars) : Option String :=
  fl.artifactory_url.orElse (fun _ => env.artifactory_url)

/-- Merged username: the flag value, else the environment. -/
def mergedUser (fl : Flags) (env : EnvVars) : Option String :=
  fl.username.orElse (fun _ => env.username)

/-- Merged password: the flag value, else the environment. -/
def mergedPass (fl : Flags) (env : EnvVars) : Option String :=
  fl.password.orElse (fun _ => env.password)

/-- Merged repository-name list: the flag list, else the comma-split
environment value, else the empty list (a None environment value). -/
def mergedRepos (fl : Flags) (env : EnvVars) : List String :=
  match fl.repository_names with
  | some rs => rs
  | none =>
    match env.repository_names with
    | none => []
    | some s => s.splitOn ","

/-- Python truthiness of an optional string: None and the empty string
are falsy. -/
def optTruthy : Option String → Bool
  | none => false
  | some s => !s.isEmpty

/-- get_configuration: merge flags and environment, then raise
ValueError when any required value is missing or falsy. -/
def get_configuration (fl : Flags) (env : EnvVars) :
    Except String (String × String × String × List String) :=
  let url := mergedUrl fl env
  let user := mergedUser fl env
  let pw := mergedPass fl env
  let repos := mergedRepos fl env
  if !optTruthy url || !optTruthy user || !optTruthy pw || repos.isEmpty then
    .error "ValueError: One or more required values are missing: ARTIFACTORY_URL, USERNAME, PASSWORD, REPOSITORY_NAMES"
  else
    .ok (url.getD "", user.getD "", pw.getD "", repos)

/-- generate_aql_query: the fixed AQL text with the repository name
spliced in. -/
def generate_aql_query (repository_name : String) : String :=
  "\nitems.find(\x7b\n    \"repo\": \"" ++ repository_name
    ++ "\"\n\x7d).include(\"name\", \"repo\", \"path\", \"type\", \"size\", \"created\", \"created_by\", \"modified\", \"modified_by\", \"updated\", \"stat\")\n"

/-- execute_aql_query over the transport outcome of the POST: a raised
RequestException is caught, printed and turned into None; a successful
response yields its decoded JSON body. -/
def execute_aql_query (outcome : Except String Response) : Option Response :=
  match outcome with
  | .ok body => some body
  | .error _ => none

/-- The observable events of one run: the POST for a repository, the
failure diagnostic print, and a written spreadsheet.  Events carry the
position of the repository name in the configured list. -/
inductive Event
  | network (i : Nat) (repo : String)
  | failDiag (i : Nat) (repo : String)
  | wrote (i : Nat) (repo : String)
deriving DecidableEq

/-- The per-repository pipeline of the main loop body:
process_results, remove_timezone, write_to_excel. -/
def processRepo (body : Response) : Except String ExcelOut := do
  let f ← process_results body
  let f2 ← remove_timezone f
  write_to_excel f2

/-- One iteration of the main loop for repository number i: the POST
always happens; if the executor result is truthy the pipeline runs and
either writes the spreadsheet or crashes the run; otherwise the
failure diagnostic is printed. -/
def perRepo (i : Nat) (r : String) (outcome : Except String Response) :
    List Event × Option String :=
  match execute_aql_query outcome with
  | some b =>
    if pyTruthy b then
      match processRepo b with
      | .ok _ => ([.network i r, .wrote i r], none)
      | .error e => ([.network i r], some e)
    else ([.network i r, .failDiag i r], none)
  | none => ([.network i r, .failDiag i r], none)

/-- The main loop over the configured repository names, with the
transport oracle keyed by the AQL query text; an uncaught exception
stops the loop. -/
def runRepos (respond : String → Except String Response) :
    Nat → List String → List Event × Option String
  | _, [] => ([], none)
  | i, r :: rs =>
    match perRepo i r (respond (generate_aql_query r)) with
    | (es, some e) => (es, some e)
    | (es, none) =>
      let rest := runRepos respond (i + 1) rs
      (es ++ rest.1, rest.2)

/-- Trace semantics of main: get_configuration, then the loop; a
configuration error aborts with no event at all. -/
def mainTrace (fl : Flags) (env : EnvVars)
    (respond : String → Except String Response) : List Event × Option String :=
  match get_configuration fl env with
  | .error e => ([], some e)
  | .ok (_, _, _, repos) => runRepos respond 0 repos

/-- Whether one transport outcome can crash the run: an error cannot, a
falsy body cannot, a truthy body cannot when its pipeline succeeds. -/
def benignB (outcome : Except String Response) : Bool :=
  match outcome with
  | .error _ => true
  | .ok b =>
    !pyTruthy b ||
      (match processRepo b with
       | .ok _ => true
       | .error _ => false)

/-- The events one loop iteration emits when it does not crash. -/
def perOutcome (i : Nat) (r : String) (outcome : Except String Response) :
    List Event :=
  match execute_aql_query outcome with
  | some b =>
    if pyTruthy b then [.network i r, .wrote i r]
    else [.network i r, .failDiag i r]
  | none => [.network i r, .failDiag i r]

/-- The full event list of a crash-free loop. -/
def traceOf (respond : String → Except String Response) :
    Nat → List String → List Event
  | _, [] => []
  | i, r :: rs =>
    perOutcome i r (respond (generate_aql_query r)) ++ traceOf respond (i + 1) rs

/-- A fully populated item, used to exercise the success path. -/
def itemGood : Item :=
  { repo := some "alpha", path := some "org/demo", name := some "demo.jar",
    type := some "file", size := some 1073741824,
    created := some (.iso ⟨2024, 1, 2, 3, 4, 5⟩ (some 120)),
    created_by := some "alice",
    modified := some (.iso ⟨2024, 1, 2, 3, 4, 6⟩ none),
    modified_by := some "alice", updated := some "2024-01-02",
    stats := some [⟨some 5, some "bob", some "2024-05-01"⟩] }

/-- A response body holding one well-formed item. -/
def goodBody : Response :=
  { results := some [itemGood], otherKeys := 0 }

/-- An item without a usage-stat entry. -/
def itemNoStats : Item :=
  { repo := some "alpha", path := some "org/demo", name := some "demo.jar",
    type := some "file", size := some 10,
    created := some (.iso ⟨2024, 1, 2, 3, 4, 5⟩ none),
    created_by := some "alice",
    modified := some (.iso ⟨2024, 1, 2, 3, 4, 6⟩ none),
    modified_by := some "alice", updated := some "2024-01-02",
    stats := none }

/-- An item whose stats field is present but an empty list. -/
def itemEmptyStats : Item :=
  { itemNoStats with stats := some [] }

/-- An item whose stats field is present with one entry that has none
of the three usage fields. -/
def itemFirstStatEmpty : Item :=
  { itemNoStats with stats := some [⟨none, none, none⟩] }

/-- Flags supplying a full configuration with two repository names. -/
def flagsFull : Flags :=
  { artifactory_url := some "https://artifactory.example",
    username := some "admin", password := some "secret",
    repository_names := some ["alpha", "beta"] }

/-- An environment with none of the variables set. -/
def envNone : EnvVars :=
  { artifactory_url := none, username := none, password := none,
    repository_names := none }

/-- Flags with nothing given on the command line. -/
def flagsNone : Flags :=
  { artifactory_url := none, username := none, password := none,
    repository_names := none }

/-- A transport oracle that fails for repository alpha and returns the
good body for every other query. -/
def respondW (q : String) : Except String Response :=
  if q = generate_aql_query "alpha" then .error "ConnectionError" else .ok goodBody

/-- A frame with two timezone-aware created cells and a mixed modified
column, used to exercise remove_timezone. -/
def frameW : Frame :=
  { rows := [],
    createdCol := .raw [some (.iso ⟨2024, 1, 2, 3, 4, 5⟩ (some 120)),
                        some (.iso ⟨2024, 2, 3, 4, 5, 6⟩ (some 120))],
    modifiedCol := .raw [some .unparsable, some (.iso ⟨2023, 6, 7, 8, 9, 10⟩ none)],
    warned := false }

/-- The frame remove_timezone produces from frameW. -/
def frameWStripped : Frame :=
  { rows := [],
    createdCol := .dt none [.t ⟨2024, 1, 2, 3, 4, 5⟩, .t ⟨2024, 2, 3, 4, 5, 6⟩],
    modifiedCol := .dt none [.NaT, .t ⟨2023, 6, 7, 8, 9, 10⟩],
    warned := false }

/-- C1: the claim says a zero-item response yields a header-only
spreadsheet without raising; on the code, a response whose results
list is empty is truthy (so the pipeline runs) and the pipeline raises
KeyError when remove_timezone reads the created column of the
column-less empty DataFrame.  This theorem evaluates the code at the
failing input. -/
theorem c1_empty_results_raises_keyerror :
    pyTruthy { results := some [], otherKeys := 0 } = true ∧
      processRepo { results := some [], otherKeys := 0 } = .error "KeyError" :=
  ⟨rfl, rfl⟩

/-- C2: whenever any of URL, username, password or the repository list
is missing or empty after merging flags and environment, the run
aborts with ValueError and the trace holds no event at all, in
particular no network call. -/
theorem c2_missing_config_aborts_before_network (fl : Flags) (env : EnvVars)
    (respond : String → Except String Response)
    (h : optTruthy (mergedUrl fl env) = false ∨
         optTruthy (mergedUser fl env) = false ∨
         optTruthy (mergedPass fl env) = false ∨
         mergedRepos fl env = []) :
    mainTrace fl env respond =
      ([], some "ValueError: One or more required values are missing: ARTIFACTORY_URL, USERNAME, PASSWORD, REPOSITORY_NAMES") ∧
      ∀ i r, Event.network i r ∉ (mainTrace fl env respond).1 := by
  have hcfg : get_configuration fl env =
      .error "ValueError: One or more required values are missing: ARTIFACTORY_URL, USERNAME, PASSWORD, REPOSITORY_NAMES" := by
    unfold get_configuration
    rcases h with h | h | h | h <;> simp [h]
  refine ⟨by simp [mainTrace, hcfg], ?_⟩
  intro i r
  simp [mainTrace, hcfg]

/-- C2 witness: with every flag and environment variable absent, the
run aborts with the ValueError and an empty trace. -/
theorem c2_missing_config_aborts_before_network_witness :
    optTruthy (mergedUrl flagsNone envNone) = false ∧
      mainTrace flagsNone envNone (fun _ => .error "unused") =
        ([], some "ValueError: One or more required values are missing: ARTIFACTORY_URL, USERNAME, PASSWORD, REPOSITORY_NAMES") ∧
      ∀ i r, Event.network i r ∉
        (mainTrace flagsNone envNone (fun _ => .error "unused")).1 :=
  ⟨rfl,
    c2_missing_config_aborts_before_network flagsNone envNone _ (Or.inl rfl)⟩

/-- C3: an item with no usage-stat entry flattens to a row with
downloads 0, downloaded_by N/A and last_downloaded N/A. -/
theorem c3_missing_stats_defaults (item : Item) (h : item.stats = none) :
    ∃ r, process_item item = .ok r ∧ r.downloads = 0 ∧
      r.downloaded_by = "N/A" ∧ r.last_downloaded = "N/A" := by
  simp only [process_item, h, Option.getD]
  exact ⟨_, rfl, rfl, rfl, rfl⟩

/-- C3 witness at a concrete item without stats. -/
theorem c3_missing_stats_defaults_witness :
    itemNoStats.stats = none ∧
      ∃ r, process_item itemNoStats = .ok r ∧ r.downloads = 0 ∧
        r.downloaded_by = "N/A" ∧ r.last_downloaded = "N/A" :=
  ⟨rfl, c3_missing_stats_defaults itemNoStats rfl⟩

/-- C4: the download-range binning places 10 in 1-10 and 11 in 11-20,
maps 0 (and every nonpositive value) to no bucket, and the first two
buckets are exactly the half-open intervals (0, 10] and (10, 20]. -/
theorem c4_download_range_binning :
    downloadRange 10 = some "1-10" ∧
      downloadRange 11 = some "11-20" ∧
      downloadRange 0 = none ∧
      (∀ d : Int, downloadRange d = none ↔ d ≤ 0) ∧
      (∀ d : Int, downloadRange d = some "1-10" ↔ 0 < d ∧ d ≤ 10) ∧
      (∀ d : Int, downloadRange d = some "11-20" ↔ 10 < d ∧ d ≤ 20) := by
  refine ⟨by decide, by decide, by decide, ?_, ?_, ?_⟩ <;>
    (intro d; unfold downloadRange; split_ifs <;> simp_all <;> omega)

/-- C10: a successful query whose decoded body is falsy (for example
the empty JSON object) is treated by the main loop exactly as a failed
query: the failure diagnostic is printed and no spreadsheet is
written, and the iteration equals the iteration of a transport
error. -/
theorem c10_falsy_body_skipped_as_failure (i : Nat) (r : String)
    (b : Response) (e : String) (h : pyTruthy b = false) :
    perRepo i r (.ok b) = ([.network i r, .failDiag i r], none) ∧
      perRepo i r (.ok b) = perRepo i r (.error e) := by
  constructor <;> simp [perRepo, execute_aql_query, h]

/-- C10 witness at the empty JSON object body. -/
theorem c10_falsy_body_skipped_as_failure_witness :
    pyTruthy { results := none, otherKeys := 0 } = false ∧
      perRepo 0 "alpha" (.ok { results := none, otherKeys := 0 }) =
        ([.network 0 "alpha", .failDiag 0 "alpha"], none) ∧
      perRepo 0 "alpha" (.ok { results := none, otherKeys := 0 }) =
        perRepo 0 "alpha" (.error "ConnectionError") :=
  ⟨rfl, c10_falsy_body_skipped_as_failure 0 "alpha" _ "ConnectionError" rfl⟩

/-- Rounding half to even is within one half of its argument. -/
theorem roundHalfEven_close (q : ℚ) : |(roundHalfEven q : ℚ) - q| ≤ 1 / 2 := by
  have hf : (⌊q⌋ : ℚ) ≤ q := Int.floor_le q
  have hc : q < ⌊q⌋ + 1 := Int.lt_floor_add_one q
  unfold roundHalfEven
  split_ifs <;> rw [abs_le] <;> constructor <;> push_cast <;> linarith

/-- C6: byte sizes are divided by 2 to the 30 and rounded to two
decimal places: 1073741824 bytes is exactly 1 GB, and in general the
result differs from the exact quotient by at most half a
hundredth. -/
theorem c6_bytes_to_gb :
    bytes_to_gb 1073741824 = 1 ∧
      ∀ b : ℚ, |bytes_to_gb b - b / 2 ^ 30| ≤ 1 / 200 := by
  constructor
  · have h : (1073741824 : ℚ) / 1024 ^ 3 * 100 = 100 := by norm_num
    unfold bytes_to_gb
    rw [h]
    norm_num [roundHalfEven]
  · intro b
    have hq : b / 2 ^ 30 = b / 1024 ^ 3 * 100 / 100 := by
      rw [mul_div_assoc]
      norm_num
    unfold bytes_to_gb
    rw [hq, div_sub_div_same, abs_div]
    have h1 := roundHalfEven_close (b / 1024 ^ 3 * 100)
    have h2 : |(100 : ℚ)| = 100 := by norm_num
    rw [h2]
    linarith

/-- C7: remove_timezone is idempotent: whenever it succeeds, applying
it to its own output returns that output unchanged. -/
theorem c7_remove_timezone_idempotent (f g : Frame)
    (h : remove_timezone f = .ok g) : remove_timezone g = .ok g := by
  unfold remove_timezone at h ⊢
  cases hc : toDatetimeCol f.createdCol with
  | error e => simp [hc] at h
  | ok p =>
    cases hm : toDatetimeCol f.modifiedCol with
    | error e => simp [hc, hm] at h
    | ok q =>
      obtain ⟨ctz, cvals⟩ := p
      obtain ⟨mtz, mvals⟩ := q
      simp only [hc, hm, Except.ok.injEq] at h
      subst h
      cases ctz <;> cases mtz <;> simp [toDatetimeCol]

/-- C7 witness: a concrete frame with an aware created column and a
mixed modified column, stripped once and twice. -/
theorem c7_remove_timezone_idempotent_witness :
    remove_timezone frameW = .ok frameWStripped ∧
      remove_timezone frameWStripped = .ok frameWStripped :=
  ⟨rfl, c7_remove_timezone_idempotent frameW frameWStripped rfl⟩

/-- The traversal of the flattening comprehension fails when any
element fails. -/
theorem mapExcept_error_of_mem {α β : Type} (f : α → Except String β)
    (l : List α) (a : α) (ha : a ∈ l) (e : String) (hf : f a = .error e) :
    ∃ e2, mapExcept f l = .error e2 := by
  induction l with
  | nil => cases ha
  | cons x xs ih =>
    rcases List.mem_cons.mp ha with rfl | ha2
    · exact ⟨e, by simp only [mapExcept, hf]; rfl⟩
    · cases hx : f x with
      | error e3 => exact ⟨e3, by simp only [mapExcept, hx]; rfl⟩
      | ok b =>
        obtain ⟨e2, h2⟩ := ih ha2
        exact ⟨e2, by simp only [mapExcept, hx, h2]; rfl⟩

/-- C9 counterexample: the claim also asserts that the 0 and N/A
defaults are substituted only when the stats key is entirely absent;
here an item whose stats key is present (one entry with no usage
fields) still flattens to the three defaults. -/
theorem c9_counterexample_defaults_with_stats_present :
    itemFirstStatEmpty.stats = some [⟨none, none, none⟩] ∧
      process_item itemFirstStatEmpty =
        .ok { repo := some "alpha", path := some "org/demo",
              name := some "demo.jar", type := some "file", size := some 10,
              created := some (.iso ⟨2024, 1, 2, 3, 4, 5⟩ none),
              created_by := some "alice",
              modified := some (.iso ⟨2024, 1, 2, 3, 4, 6⟩ none),
              modified_by := some "alice", updated := some "2024-01-02",
              downloads := 0, downloaded_by := "N/A",
              last_downloaded := "N/A" } :=
  ⟨rfl, rfl⟩

/-- C9 amended: a present-but-empty stats list raises IndexError (and
makes the whole normalization fail), while the 0 and N/A defaults are
substituted when the stats key is absent and also, field-wise, when
the first stats entry lacks the usage fields. -/
theorem c9_amended_empty_stats_raises :
    (∀ item : Item, item.stats = some [] →
        process_item item = .error "IndexError: list index out of range") ∧
      (∀ resp : Response, ∀ l : List Item, resp.results = some l →
        ∀ item ∈ l, item.stats = some [] →
          ∃ e, process_results resp = .error e) ∧
      (∀ item : Item,
        (item.stats = none ∨
          ∃ rest, item.stats = some (⟨none, none, none⟩ :: rest)) →
        ∃ r, process_item item = .ok r ∧ r.downloads = 0 ∧
          r.downloaded_by = "N/A" ∧ r.last_downloaded = "N/A") := by
  refine ⟨?_, ?_, ?_⟩
  · intro item h
    simp [process_item, h]
  · intro resp l hl item hmem hstats
    have h1 : process_item item = .error "IndexError: list index out of range" := by
      simp [process_item, hstats]
    obtain ⟨e2, h2⟩ :=
      mapExcept_error_of_mem process_item l item hmem _ h1
    refine ⟨e2, ?_⟩
    simp only [process_results, hl, Option.getD, h2]
    rfl
  · intro item h
    rcases h with h | ⟨rest, h⟩ <;>
      (simp only [process_item, h, Option.getD]; exact ⟨_, rfl, rfl, rfl, rfl⟩)

/-- C9 amended witness: the empty-stats item raises in isolation and
inside a full response. -/
theorem c9_amended_empty_stats_raises_witness :
    itemEmptyStats.stats = some [] ∧
      process_item itemEmptyStats = .error "IndexError: list index out of range" ∧
      (∃ e, process_results { results := some [itemEmptyStats], otherKeys := 0 } =
        .error e) :=
  ⟨rfl, c9_amended_empty_stats_raises.1 itemEmptyStats rfl,
    c9_amended_empty_stats_raises.2.1 _ [itemEmptyStats] rfl itemEmptyStats
      (by simp) rfl⟩

/-- A benign outcome makes one loop iteration emit its events and not
crash. -/
theorem perRepo_eq_perOutcome (i : Nat) (r : String)
    (o : Except String Response) (h : benignB o = true) :
    perRepo i r o = (perOutcome i r o, none) := by
  cases o with
  | error e => rfl
  | ok b =>
    simp only [benignB] at h
    simp only [perRepo, perOutcome, execute_aql_query]
    cases hb : pyTruthy b with
    | false => simp [hb]
    | true =>
      rw [hb] at h
      simp only [Bool.not_true, Bool.false_or] at h
      cases hp : processRepo b with
      | ok x => simp [hb, hp]
      | error e => rw [hp] at h; simp at h

/-- When every outcome of the listed repositories is benign, the loop
runs to the end and emits exactly the per-iteration events. -/
theorem runRepos_benign (respond : String → Except String Response)
    (rs : List String) :
    ∀ i, (∀ r ∈ rs, benignB (respond (generate_aql_query r)) = true) →
      runRepos respond i rs = (traceOf respond i rs, none) := by
  induction rs with
  | nil => intro i _; rfl
  | cons r rs ih =>
    intro i h
    have h1 := h r (List.mem_cons_self r rs)
    have h2 := ih (i + 1) (fun x hx => h x (List.mem_cons_of_mem r hx))
    simp [runRepos, traceOf, perRepo_eq_perOutcome _ _ _ h1, h2]

/-- Every iteration emits its network event. -/
theorem network_mem_perOutcome (i : Nat) (r : String)
    (o : Except String Response) :
    Event.network i r ∈ perOutcome i r o := by
  unfold perOutcome
  cases execute_aql_query o with
  | none => simp
  | some b => cases h : pyTruthy b <;> simp [h]

/-- A transport failure makes the iteration print the diagnostic. -/
theorem failDiag_mem_perOutcome_of_error (i : Nat) (r e : String) :
    Event.failDiag i r ∈ perOutcome i r (.error e) := by
  simp [perOutcome, execute_aql_query]

/-- A truthy successful body makes the iteration write the report. -/
theorem wrote_mem_perOutcome_of_ok (i : Nat) (r : String) (b : Response)
    (hb : pyTruthy b = true) :
    Event.wrote i r ∈ perOutcome i r (.ok b) := by
  simp [perOutcome, execute_aql_query, hb]

/-- The events of the iteration at position k all appear in the full
trace. -/
theorem slot_mem_traceOf (respond : String → Except String Response)
    (rs : List String) :
    ∀ i k (hk : k < rs.length) (e : Event),
      e ∈ perOutcome (i + k) (rs.get ⟨k, hk⟩)
          (respond (generate_aql_query (rs.get ⟨k, hk⟩))) →
      e ∈ traceOf respond i rs := by
  induction rs with
  | nil => intro i k hk; exact absurd hk (by simp)
  | cons r rs ih =>
    intro i k hk e he
    cases k with
    | zero =>
      simp only [List.get] at he
      simp only [traceOf]
      exact List.mem_append_left _ (by simpa using he)
    | succ k2 =>
      simp only [List.get] at he
      have harr : i + (k2 + 1) = (i + 1) + k2 := by omega
      rw [harr] at he
      have := ih (i + 1) k2 (by simpa using hk) e he
      simp only [traceOf]
      exact List.mem_append_right _ this

/-- A wrote event in the trace comes from some position whose outcome
was a truthy successful body. -/
theorem wrote_mem_traceOf_inv (respond : String → Except String Response)
    (rs : List String) :
    ∀ i j x, Event.wrote j x ∈ traceOf respond i rs →
      ∃ k, ∃ hk : k < rs.length, j = i + k ∧ x = rs.get ⟨k, hk⟩ ∧
        ∃ b, respond (generate_aql_query x) = .ok b ∧ pyTruthy b = true := by
  induction rs with
  | nil => intro i j x h; simp [traceOf] at h
  | cons r rs ih =>
    intro i j x h
    simp only [traceOf] at h
    rcases List.mem_append.mp h with h1 | h2
    · revert h1
      unfold perOutcome
      cases ho : respond (generate_aql_query r) with
      | error e => intro h1; simp [execute_aql_query] at h1
      | ok b =>
        cases hb : pyTruthy b with
        | false => intro h1; simp [execute_aql_query, hb] at h1
        | true =>
          intro h1
          simp only [execute_aql_query, hb, if_true, List.mem_cons,
            List.mem_singleton, List.not_mem_nil, or_false] at h1
          rcases h1 with h1 | h1
          · exact absurd h1 (by simp)
          · have hj : j = i := by
              have := congrArg (fun ev => match ev with
                | Event.network n _ => n
                | Event.failDiag n _ => n
                | Event.wrote n _ => n) h1
              simpa using this
            have hx : x = r := by
              have := congrArg (fun ev => match ev with
                | Event.network _ s => s
                | Event.failDiag _ s => s
                | Event.wrote _ s => s) h1
              simpa using this
            subst hj
            subst hx
            exact ⟨0, by simp, by omega, by simp, b, ho, hb⟩
    · obtain ⟨k, hk, hj, hx, hb⟩ := ih (i + 1) j x h2
      refine ⟨k + 1, by simp [Nat.succ_lt_succ hk], by omega, ?_, hb⟩
      simpa [List.get] using hx

/-- C5: a transport or HTTP failure for one repository is returned as
None by the executor, the run does not crash, every repository in the
list still gets its network call, the failing repository gets the
diagnostic and no spreadsheet, and every repository whose query
succeeds with a truthy body gets its spreadsheet written. -/
theorem c5_transport_failure_skips_and_continues
    (fl : Flags) (env : EnvVars) (respond : String → Except String Response)
    (url user pw : String) (repos : List String)
    (hcfg : get_configuration fl env = .ok (url, user, pw, repos))
    (hben : ∀ r ∈ repos, benignB (respond (generate_aql_query r)) = true)
    (k : Nat) (hk : k < repos.length) (e : String)
    (hfail : respond (generate_aql_query (repos.get ⟨k, hk⟩)) = .error e) :
    (∀ e2 : String, execute_aql_query (.error e2) = none) ∧
      (mainTrace fl env respond).2 = none ∧
      (∀ j (hj : j < repos.length),
        Event.network j (repos.get ⟨j, hj⟩) ∈ (mainTrace fl env respond).1) ∧
      Event.failDiag k (repos.get ⟨k, hk⟩) ∈ (mainTrace fl env respond).1 ∧
      (∀ x, Event.wrote k x ∉ (mainTrace fl env respond).1) ∧
      (∀ j (hj : j < repos.length) (b : Response),
        respond (generate_aql_query (repos.get ⟨j, hj⟩)) = .ok b →
        pyTruthy b = true →
        Event.wrote j (repos.get ⟨j, hj⟩) ∈ (mainTrace fl env respond).1) := by
  have hmain : mainTrace fl env respond = (traceOf respond 0 repos, none) := by
    simp only [mainTrace, hcfg]
    exact runRepos_benign respond repos 0 hben
  refine ⟨fun e2 => rfl, by rw [hmain], ?_, ?_, ?_, ?_⟩
  · intro j hj
    rw [hmain]
    have := slot_mem_traceOf respond repos 0 j hj _
      (network_mem_perOutcome (0 + j) _ _)
    simpa using this
  · rw [hmain]
    have := slot_mem_traceOf respond repos 0 k hk _
      (by rw [hfail]; exact failDiag_mem_perOutcome_of_error (0 + k) _ e)
    simpa using this
  · intro x hx
    rw [hmain] at hx
    obtain ⟨k2, hk2, hj, hxe, b, hb1, hb2⟩ :=
      wrote_mem_traceOf_inv respond repos 0 k x (by simpa using hx)
    have hkk : k2 = k := by omega
    subst hkk
    rw [hxe, hfail] at hb1
    exact absurd hb1 (by simp)
  · intro j hj b hb1 hb2
    rw [hmain]
    have := slot_mem_traceOf respond repos 0 j hj _
      (by rw [hb1]; exact wrote_mem_perOutcome_of_ok (0 + j) _ b hb2)
    simpa using this

/-- C5 witness: two repositories, the first failing at transport, the
second succeeding and written. -/
theorem c5_transport_failure_skips_and_continues_witness :
    get_configuration flagsFull envNone =
      .ok ("https://artifactory.example", "admin", "secret", ["alpha", "beta"]) ∧
      respondW (generate_aql_query "alpha") = .error "ConnectionError" ∧
      (mainTrace flagsFull envNone respondW).2 = none ∧
      Event.failDiag 0 "alpha" ∈ (mainTrace flagsFull envNone respondW).1 ∧
      (∀ x, Event.wrote 0 x ∉ (mainTrace flagsFull envNone respondW).1) ∧
      Event.wrote 1 "beta" ∈ (mainTrace flagsFull envNone respondW).1 := by
  have h := c5_transport_failure_skips_and_continues flagsFull envNone respondW
    "https://artifactory.example" "admin" "secret" ["alpha", "beta"] rfl
    (by decide) 0 (by decide) "ConnectionError" rfl
  exact ⟨rfl, rfl, h.2.1, h.2.2.2.1, h.2.2.2.2.1,
    h.2.2.2.2.2 1 (by decide) goodBody rfl rfl⟩

/-- C8 counterexample: two distinct run instants in the same minute
produce the same file name, so the naming does not guarantee absence
of collisions between distinct runs; the third conjunct shows the
produced pattern. -/
theorem c8_counterexample_same_minute_collision :
    (⟨2024, 10, 12, 9, 30, 0⟩ : PyDateTime) ≠ ⟨2024, 10, 12, 9, 30, 45⟩ ∧
      statsFilename "libs-release" ⟨2024, 10, 12, 9, 30, 0⟩ =
        statsFilename "libs-release" ⟨2024, 10, 12, 9, 30, 45⟩ ∧
      statsFilename "libs-release" ⟨2024, 10, 12, 9, 30, 0⟩ =
        "libs-release-2024Oct12T0930HZ-stats.xlsx" :=
  ⟨by decide, rfl, rfl⟩

/-- Decimal digit characters agree exactly when the digits agree. -/
theorem digitChar_inj_mod (a b : Nat) (h : digitChar a = digitChar b) :
    a % 10 = b % 10 := by
  have ha : a % 10 < 10 := Nat.mod_lt _ (by omega)
  have hb : b % 10 < 10 := Nat.mod_lt _ (by omega)
  have key : ∀ x < 10, ∀ y < 10,
      Char.ofNat (48 + x) = Char.ofNat (48 + y) → x = y := by decide
  exact key _ ha _ hb h

/-- Two-digit rendering is injective below 100. -/
theorem pad2Chars_inj (n1 n2 : Nat) (h1 : n1 < 100) (h2 : n2 < 100)
    (h : pad2Chars n1 = pad2Chars n2) : n1 = n2 := by
  simp only [pad2Chars, List.cons.injEq, and_true] at h
  obtain ⟨ha, hb⟩ := h
  have e1 := digitChar_inj_mod _ _ ha
  have e2 := digitChar_inj_mod _ _ hb
  omega

/-- Four-digit year rendering is injective on four-digit years. -/
theorem year4Chars_inj (y1 y2 : Nat) (h1a : 1000 ≤ y1) (h1b : y1 < 10000)
    (h2a : 1000 ≤ y2) (h2b : y2 < 10000)
    (h : year4Chars y1 = year4Chars y2) : y1 = y2 := by
  simp only [year4Chars, List.cons.injEq, and_true] at h
  obtain ⟨ha, hb, hc, hd⟩ := h
  have e1 := digitChar_inj_mod _ _ ha
  have e2 := digitChar_inj_mod _ _ hb
  have e3 := digitChar_inj_mod _ _ hc
  have e4 := digitChar_inj_mod _ _ hd
  omega

/-- Month abbreviations are pairwise distinct over the real months. -/
theorem monthAbbrev_inj : ∀ m1 < 13, ∀ m2 < 13, 1 ≤ m1 → 1 ≤ m2 →
    monthAbbrev m1 = monthAbbrev m2 → m1 = m2 := by decide

/-- Month abbreviations of real months have three characters. -/
theorem monthAbbrev_length : ∀ m < 13, 1 ≤ m → (monthAbbrev m).length = 3 := by
  decide

/-- The strftime output determines every formatted field on valid
wall-clock times. -/
theorem fmtChars_inj (t1 t2 : PyDateTime) (h1 : validDT t1) (h2 : validDT t2)
    (h : fmtChars t1 = fmtChars t2) :
    t1.year = t2.year ∧ t1.month = t2.month ∧ t1.day = t2.day ∧
      t1.hour = t2.hour ∧ t1.minute = t2.minute := by
  obtain ⟨hy1, hy1b, hm1, hm1b, hd1, hh1, hmin1⟩ := h1
  obtain ⟨hy2, hy2b, hm2, hm2b, hd2, hh2, hmin2⟩ := h2
  unfold fmtChars at h
  simp only [List.append_assoc] at h
  obtain ⟨hY, h⟩ := List.append_inj h rfl
  have lm : (monthAbbrev t1.month).length = (monthAbbrev t2.month).length := by
    rw [monthAbbrev_length _ hm1b hm1, monthAbbrev_length _ hm2b hm2]
  obtain ⟨hM, h⟩ := List.append_inj h lm
  obtain ⟨hD, h⟩ := List.append_inj h rfl
  obtain ⟨_, h⟩ := List.append_inj h rfl
  obtain ⟨hH, h⟩ := List.append_inj h rfl
  obtain ⟨hMin, _⟩ := List.append_inj h rfl
  exact ⟨year4Chars_inj _ _ hy1 hy1b hy2 hy2b hY,
    monthAbbrev_inj _ hm1b _ hm2b hm1 hm2 hM,
    pad2Chars_inj _ _ hd1 hd2 hD,
    pad2Chars_inj _ _ hh1 hh2 hH,
    pad2Chars_inj _ _ hmin1 hmin2 hMin⟩

/-- C8 amended: the file name follows the
repository-timestamp-stats.xlsx pattern with the write-time timestamp,
but only runs whose timestamps differ at minute granularity are
guaranteed distinct names for the same repository; two runs inside one
minute collide (see the counterexample). -/
theorem c8_amended_distinct_minutes_distinct_names (r : String)
    (t1 t2 : PyDateTime) (h1 : validDT t1) (h2 : validDT t2)
    (hne : (t1.year, t1.month, t1.day, t1.hour, t1.minute) ≠
      (t2.year, t2.month, t2.day, t2.hour, t2.minute)) :
    statsFilename r t1 ≠ statsFilename r t2 := by
  intro h
  apply hne
  have hd : (statsFilename r t1).data = (statsFilename r t2).data :=
    congrArg String.data h
  simp only [statsFilename, strftimeHZ, String.data_append,
    List.append_assoc] at hd
  have hd2 := List.append_cancel_left hd
  have hd3 := List.append_cancel_left hd2
  have hd4 := List.append_cancel_right hd3
  obtain ⟨e1, e2, e3, e4, e5⟩ := fmtChars_inj t1 t2 h1 h2 hd4
  simp [e1, e2, e3, e4, e5]

/-- C8 amended witness: same repository, one minute apart, distinct
file names. -/
theorem c8_amended_distinct_minutes_distinct_names_witness :
    validDT ⟨2024, 10, 12, 9, 30, 0⟩ ∧ validDT ⟨2024, 10, 12, 9, 31, 0⟩ ∧
      statsFilename "libs-release" ⟨2024, 10, 12, 9, 30, 0⟩ ≠
        statsFilename "libs-release" ⟨2024, 10, 12, 9, 31, 0⟩ :=
  ⟨by unfold validDT; decide, by unfold validDT; decide,
    c8_amended_distinct_minutes_distinct_names "libs-release" _ _
      (by unfold validDT; decide) (by unfold validDT; decide) (by decide)⟩
